import Mathlib

/-!
Verification of the sync engine in `app/services/sync_service.py`.

The Python code is shallowly embedded: counters are `Nat`, the Python
float divisions `total_failed / total_processed > 0.9` and `> 0.1` are
modelled as exact rational comparisons over `ℚ` (for the counter
magnitudes a sync run can reach, IEEE-754 double division agrees with
the exact rational comparison at these thresholds), the database
session is an explicit store value threaded through each flow, and a
Python exception is an `Except.error` carrying the store as committed
at the moment the exception is raised (a rollback discards only the
uncommitted tail, which the embedding never adds to the store).
-/

namespace SyncService

/-- The five counters persisted on a `SyncLog` row
(`records_processed`, `records_created`, `records_updated`,
`records_skipped`, `records_failed`). -/
structure SyncCounters where
  processed : Nat
  created : Nat
  updated : Nat
  skipped : Nat
  failed : Nat
deriving Repr, DecidableEq

def SyncCounters.zero : SyncCounters := ⟨0, 0, 0, 0, 0⟩

/-- Componentwise sum, as performed by the `+=` statements of
`SyncService._update_sync_log`. -/
def SyncCounters.add (a b : SyncCounters) : SyncCounters :=
  ⟨a.processed + b.processed, a.created + b.created, a.updated + b.updated,
   a.skipped + b.skipped, a.failed + b.failed⟩

/-- `SyncService._update_sync_log`: optionally reset the persisted
counters (the `reset_counters` flag), then add the passed values. -/
def updateSyncLog (log : SyncCounters) (delta : SyncCounters) (reset : Bool) : SyncCounters :=
  (if reset then SyncCounters.zero else log).add delta

/-- The bucket-sum invariant claimed by the spec:
`processed == created + updated + skipped + failed`. -/
def SyncCounters.bucketInv (c : SyncCounters) : Prop :=
  c.processed = c.created + c.updated + c.skipped + c.failed

instance (c : SyncCounters) : Decidable c.bucketInv := by
  unfold SyncCounters.bucketInv; infer_instance

/-- The status computation of `SyncService._end_sync_log`
(sync_service.py lines 127-146): the caller-supplied `status` is kept
unless the persisted counters reclassify the run.  Divisions are the
exact rational counterparts of the Python float divisions. -/
def endSyncStatus (statusIn : String) (processed failed : Nat) : String :=
  if 0 < processed then
    if failed = processed ∨ (failed : ℚ) / (processed : ℚ) > 9 / 10 then "failed"
    else if (failed : ℚ) / (processed : ℚ) > 1 / 10 then "partial"
    else statusIn
  else statusIn

/-- The status rule exactly as the spec words it (spec sections 4.4 and
8), written independently of the source to compare with
`endSyncStatus`: `processed == 0` gives success, `failed == processed`
or a ratio above 0.9 gives failed, a ratio above 0.1 gives partial,
anything else success. -/
def specStatusRule (processed failed : Nat) : String :=
  if processed = 0 then "success"
  else if failed = processed ∨ (failed : ℚ) / (processed : ℚ) > 9 / 10 then "failed"
  else if (failed : ℚ) / (processed : ℚ) > 1 / 10 then "partial"
  else "success"

/-- Characterization of `endSyncStatus` by cross-multiplied integer
comparisons, used to evaluate the rational thresholds on concrete
counters. -/
theorem endSyncStatus_nat (st : String) (p f : Nat) :
    endSyncStatus st p f =
      if 0 < p then
        if f = p ∨ 9 * p < 10 * f then "failed"
        else if p < 10 * f then "partial"
        else st
      else st := by
  unfold endSyncStatus
  rcases Nat.eq_zero_or_pos p with h | h
  · simp [h]
  · have hp : (0 : ℚ) < (p : ℚ) := by exact_mod_cast h
    have h9 : ((f : ℚ) / (p : ℚ) > 9 / 10) ↔ 9 * p < 10 * f := by
      rw [gt_iff_lt, div_lt_div_iff₀ (by norm_num) hp]
      norm_cast
      omega
    have h1 : ((f : ℚ) / (p : ℚ) > 1 / 10) ↔ p < 10 * f := by
      rw [gt_iff_lt, div_lt_div_iff₀ (by norm_num) hp]
      norm_cast
      omega
    simp only [h9, h1]

theorem endSyncStatus_eq_specStatusRule (p f : Nat) :
    endSyncStatus "success" p f = specStatusRule p f := by
  unfold endSyncStatus specStatusRule
  rcases Nat.eq_zero_or_pos p with h | h
  · simp [h]
  · simp [h, Nat.pos_iff_ne_zero.mp h]

/-- An installation-request row of the local store, reduced to its
natural key and the reference-entity codes its foreign keys resolve
through. -/
structure TargetRequest where
  requestNo : String
  instTypeCode : Option String
  statusCode : Option String
  meterSizeCode : Option String
deriving Repr, DecidableEq

/-- The parts of the destination store the sync flows read and write:
each entity kind is the list of natural keys present (plus, for
installation requests, the linked reference codes). -/
structure Store where
  holidays : List String
  customers : List String
  branches : List String
  statuses : List String
  instTypes : List String
  meterSizes : List String
  requests : List TargetRequest
deriving Repr, DecidableEq

def Store.empty : Store := ⟨[], [], [], [], [], [], []⟩

/-- Split a character list on `'-'` (the separators of the
`%Y-%m-%d` format). -/
def splitDash : List Char → List (List Char)
  | [] => [[]]
  | c :: cs =>
    let r := splitDash cs
    if c = '-' then [] :: r
    else
      match r with
      | [] => [[c]]
      | g :: gs => (c :: g) :: gs

/-- Decimal value of a digit string. -/
def digitsVal (cs : List Char) : Nat :=
  cs.foldl (fun a c => a * 10 + (c.toNat - 48)) 0

/-- `datetime.strptime(s, "%Y-%m-%d")` as used by `sync_holidays`:
a `None` value raises `TypeError` and any string that is not a
`YYYY-MM-DD` date with a month in 1..12 and a day in 1..31 raises
`ValueError`; both land in the same `failed += 1; continue` branch,
so the embedding only records whether parsing succeeds. -/
def parsesAsDate (s : Option String) : Bool :=
  match s with
  | none => false
  | some str =>
    match splitDash str.toList with
    | [y, m, d] =>
      y.length == 4 && y.all Char.isDigit &&
      decide (0 < m.length) && decide (m.length ≤ 2) && m.all Char.isDigit &&
      decide (0 < d.length) && decide (d.length ≤ 2) && d.all Char.isDigit &&
      decide (1 ≤ digitsVal m) && decide (digitsVal m ≤ 12) &&
      decide (1 ≤ digitsVal d) && decide (digitsVal d ≤ 31)
    | _ => false

/-- A source row of the holiday query.  `raisesOnUpsert` models an
unexpected exception thrown while upserting this row (the generic
`except Exception` handler of the loop). -/
structure HolidayRow where
  holidayDate : Option String
  description : String
  raisesOnUpsert : Bool
deriving Repr, DecidableEq

/-- How one holiday row terminates: the date-parse `continue` branch,
the generic row-level exception handler, or a successful update or
create. -/
inductive HolidayOutcome
  | parseFailed
  | upsertRaised
  | updatedRow
  | createdRow
deriving Repr, DecidableEq

/-- Per-row processing of `sync_holidays` (lines 212-269): parse the
date, look the holiday up by date, update in place or insert. -/
def processHolidayRow (s : Store) (r : HolidayRow) : Store × HolidayOutcome :=
  if !(parsesAsDate r.holidayDate) then (s, .parseFailed)
  else if r.raisesOnUpsert then (s, .upsertRaised)
  else
    let key := r.holidayDate.getD ""
    if key ∈ s.holidays then (s, .updatedRow)
    else ({ s with holidays := key :: s.holidays }, .createdRow)

/-- The counter increments of one holiday row: `processed += 1` plus
exactly one terminal bucket. -/
def holidayDelta : HolidayOutcome → SyncCounters
  | .parseFailed => ⟨1, 0, 0, 0, 1⟩
  | .upsertRaised => ⟨1, 0, 0, 0, 1⟩
  | .updatedRow => ⟨1, 0, 1, 0, 0⟩
  | .createdRow => ⟨1, 1, 0, 0, 0⟩

/-- The row loop of `sync_holidays`: state is the store, the loop-local
counters and the persisted `SyncLog` counters.  Every tenth processed
row passes the cumulative loop counters to `_update_sync_log`, which
adds them to the persisted counters; the date-parse branch ends in
`continue` and skips that periodic block. -/
def holidayLoop : Store → SyncCounters → SyncCounters → List HolidayRow →
    Store × SyncCounters × SyncCounters
  | s, c, log, [] => (s, c, log)
  | s, c, log, r :: rs =>
    let p := processHolidayRow s r
    let c' := c.add (holidayDelta p.2)
    let log' :=
      if p.2 = HolidayOutcome.parseFailed then log
      else if c'.processed % 10 = 0 then updateSyncLog log c' false else log
    holidayLoop p.1 c' log' rs

/-- Outcome of one completed run: final store, the loop-local counters,
the persisted counters and the terminal status. -/
structure RunResult where
  store : Store
  loopCounters : SyncCounters
  log : SyncCounters
  status : String
deriving Repr, DecidableEq

/-- `sync_holidays` without a run-aborting exception: run the loop,
make the final cumulative `_update_sync_log` call (line 282, without
`reset_counters`), then `_end_sync_log("success")`. -/
def holidayRun (s : Store) (rows : List HolidayRow) : RunResult :=
  let t := holidayLoop s SyncCounters.zero SyncCounters.zero rows
  let log1 := updateSyncLog t.2.2 t.2.1 false
  { store := t.1, loopCounters := t.2.1, log := log1,
    status := endSyncStatus "success" log1.processed log1.failed }

theorem updateSyncLog_no_reset (log d : SyncCounters) :
    updateSyncLog log d false = log.add d := rfl

theorem SyncCounters.bucketInv_zero : SyncCounters.zero.bucketInv := by decide

theorem SyncCounters.bucketInv_add {a b : SyncCounters}
    (ha : a.bucketInv) (hb : b.bucketInv) : (a.add b).bucketInv := by
  cases a; cases b
  unfold SyncCounters.bucketInv SyncCounters.add at *
  dsimp only at *
  omega

theorem holidayDelta_bucketInv (o : HolidayOutcome) : (holidayDelta o).bucketInv := by
  cases o <;> decide

theorem holidayLoop_bucketInv (rows : List HolidayRow) :
    ∀ s c log, c.bucketInv → log.bucketInv →
      (holidayLoop s c log rows).2.1.bucketInv ∧ (holidayLoop s c log rows).2.2.bucketInv := by
  induction rows with
  | nil => intro s c log hc hl; exact ⟨hc, hl⟩
  | cons r rs ih =>
    intro s c log hc hl
    simp only [holidayLoop]
    apply ih
    · exact SyncCounters.bucketInv_add hc (holidayDelta_bucketInv _)
    · split
      · exact hl
      · split
        · exact SyncCounters.bucketInv_add hl
            (SyncCounters.bucketInv_add hc (holidayDelta_bucketInv _))
        · exact hl

theorem holidayRun_log_bucketInv (s : Store) (rows : List HolidayRow) :
    (holidayRun s rows).log.bucketInv := by
  have h := holidayLoop_bucketInv rows s SyncCounters.zero SyncCounters.zero
    SyncCounters.bucketInv_zero SyncCounters.bucketInv_zero
  exact SyncCounters.bucketInv_add h.2 h.1

/-- Ten well-formed holiday rows, none of which fails: the concrete
input on which the periodic progress update double-counts. -/
def tenGoodHolidayRows : List HolidayRow :=
  ["2024-01-01", "2024-01-02", "2024-01-03", "2024-01-04", "2024-01-05",
   "2024-01-06", "2024-01-07", "2024-01-08", "2024-01-09", "2024-01-10"].map
    (fun d => { holidayDate := some d, description := "h", raisesOnUpsert := false })

/-- The spec scenario: a batch of ten holiday rows where row 4 throws
on date parsing and the other nine are new holidays. -/
def tenHolidayRowsRowFourBad : List HolidayRow :=
  ["2024-01-01", "2024-01-02", "2024-01-03", "bad-date", "2024-01-05",
   "2024-01-06", "2024-01-07", "2024-01-08", "2024-01-09", "2024-01-10"].map
    (fun d => { holidayDate := some d, description := "h", raisesOnUpsert := false })

/-- C5: `sync_holidays` passes its cumulative loop counters to the
additive `_update_sync_log` both at the every-tenth-row periodic
update and at the final update, so a clean 10-row run finalizes with
`records_processed = 20` although only 10 source rows were iterated —
each row is counted twice, against the delta-only contract. -/
theorem holiday_periodic_update_double_counts :
    (holidayRun Store.empty tenGoodHolidayRows).loopCounters.processed = 10 ∧
    tenGoodHolidayRows.length = 10 ∧
    (holidayRun Store.empty tenGoodHolidayRows).log.processed = 20 := by
  decide

/-- C6 counterexample: in the spec's 10-row scenario with row 4 failing
on date parsing the loop completes with `processed = 10, failed = 1`,
but the finalized status is not `partial`: at the exact
`failed/processed = 0.1` boundary the strict `> 0.1` test is false. -/
theorem boundary_scenario_not_partial :
    (holidayRun Store.empty tenHolidayRowsRowFourBad).loopCounters =
      ⟨10, 9, 0, 0, 1⟩ ∧
    (holidayRun Store.empty tenHolidayRowsRowFourBad).status ≠ "partial" := by
  refine ⟨by decide, ?_⟩
  have hlog : (holidayRun Store.empty tenHolidayRowsRowFourBad).log =
      ⟨20, 18, 0, 0, 2⟩ := by decide
  show endSyncStatus "success"
      (holidayRun Store.empty tenHolidayRowsRowFourBad).log.processed
      (holidayRun Store.empty tenHolidayRowsRowFourBad).log.failed ≠ "partial"
  rw [hlog, endSyncStatus_nat]
  decide

/-- C6 amended: the 10-row scenario with row 4 failing on date parsing
classifies the other nine rows as created, completes the loop with
`processed = 10, failed = 1` (persisted counters `20/2`, doubled by the
cumulative progress updates but with the same ratio), and finalizes
with status `success`, because `> 0.1` is false at exactly 0.1. -/
theorem boundary_scenario_resolves_success :
    (holidayRun Store.empty tenHolidayRowsRowFourBad).loopCounters =
      ⟨10, 9, 0, 0, 1⟩ ∧
    (holidayRun Store.empty tenHolidayRowsRowFourBad).log = ⟨20, 18, 0, 0, 2⟩ ∧
    (holidayRun Store.empty tenHolidayRowsRowFourBad).status = "success" := by
  refine ⟨by decide, by decide, ?_⟩
  have hlog : (holidayRun Store.empty tenHolidayRowsRowFourBad).log =
      ⟨20, 18, 0, 0, 2⟩ := by decide
  show endSyncStatus "success"
      (holidayRun Store.empty tenHolidayRowsRowFourBad).log.processed
      (holidayRun Store.empty tenHolidayRowsRowFourBad).log.failed = "success"
  rw [hlog, endSyncStatus_nat]
  decide

/-- Python truthiness of an optional string (`if value:`): absent and
empty are both falsy. -/
def pyTruthy (o : Option String) : Bool :=
  match o with
  | none => false
  | some s => !s.data.isEmpty

/-- `str(x) if x is not None else None` followed by an `if x:` guard:
the code resolves a reference only for a truthy code value. -/
def resolvedCode (o : Option String) : Option String :=
  if pyTruthy o then o else none

/-- `.strip()`: drop whitespace from both ends. -/
def pyStrip (cs : List Char) : List Char :=
  ((cs.dropWhile Char.isWhitespace).reverse.dropWhile Char.isWhitespace).reverse

/-- `.upper()` over the characters. -/
def pyUpper (cs : List Char) : List Char :=
  cs.map Char.toUpper

/-- `str(request_no).strip().upper()` (sync_service.py line 487). -/
def normalizeRequestNo (s : String) : String :=
  String.mk (pyUpper (pyStrip s.data))

/-- `func.upper(InstallationRequest.request_no)` applied to a stored
key, for the lookup of line 491. -/
def upperKey (s : String) : String :=
  String.mk (pyUpper s.data)

/-- Lazy creation of a status / installation-type / meter-size
reference entity: look up by code, insert a placeholder when absent
(never racy in the source's handling — no `try` around these inserts,
and the embedding gives them no race oracle). -/
def ensureRef (xs : List String) (code : String) : List String :=
  if code ∈ xs then xs else code :: xs

/-- Branch creation without duplicate-key protection
(`sync_installation_requests` lines 432-443 and 518-528, and
`sync_temporary_installations` lines 954-964): when a concurrent
writer wins the race (`race = true`), the `INSERT` raises and the
exception escapes to the row-level handler; the concurrently created
branch is visible in the store carried by the error. -/
def ensureBranchPlain (branches : List String) (ba : String) (race : Bool) :
    Except (List String) (List String) :=
  if ba ∈ branches then .ok branches
  else if race then .error (ba :: branches)
  else .ok (ba :: branches)

/-- Branch creation with duplicate-key recovery
(`sync_temporary_installations` lines 877-896, `sync_new_customers`
lines 1301-1320, `sync_customer_type_changes` lines 1527-1546): a
duplicate-key failure is rolled back and the branch the concurrent
writer created is found by the re-query, so resolution always
succeeds. -/
def ensureBranchRecover (branches : List String) (ba : String) (race : Bool) :
    List String :=
  if ba ∈ branches then branches
  else if race then ba :: branches
  else ba :: branches

/-- A source row of the installation-request query.  `branchRace`
models a concurrent writer creating the same branch between our lookup
and our insert; `raisesOnUpsert` models an unexpected exception at the
final upsert commit. -/
structure IRRow where
  customerId : Option String
  requestNo : Option String
  requestId : Option String
  branchCode : Option String
  statusCode : Option String
  installationTypeCode : Option String
  meterSizeCode : Option String
  branchRace : Bool
  raisesOnUpsert : Bool
deriving Repr, DecidableEq

inductive UpsertOutcome
  | createdRow
  | updatedRow
  | skippedRow
deriving Repr, DecidableEq

/-- The customer step of `sync_installation_requests` (lines 407-469):
an unknown customer id triggers branch resolution (with the unguarded
branch insert) and then customer creation. -/
def irCustomerStep (s : Store) (r : IRRow) : Except Store Store :=
  if pyTruthy r.customerId then
    let cid := r.customerId.getD ""
    if cid ∈ s.customers then .ok s
    else
      match (if pyTruthy r.branchCode
             then ensureBranchPlain s.branches (r.branchCode.getD "") r.branchRace
             else Except.ok s.branches) with
      | .error bs => .error { s with branches := bs }
      | .ok bs => .ok { s with branches := bs, customers := cid :: s.customers }
  else .ok s

/-- One row of `sync_installation_requests` (lines 403-696), up to the
row-level exception handler: customer step, natural-key validation and
synthesis, normalization, reference resolution, upsert.  An error
carries the store with all already-committed writes. -/
def processIRRowBody (s : Store) (r : IRRow) : Except Store (Store × UpsertOutcome) :=
  match irCustomerStep s r with
  | .error s1 => .error s1
  | .ok s1 =>
    match (if pyTruthy r.requestNo then some (r.requestNo.getD "")
           else if pyTruthy r.requestId then some ("REQ-" ++ r.requestId.getD "")
           else none) with
    | none => .ok (s1, .skippedRow)
    | some rn0 =>
      let rn := normalizeRequestNo rn0
      let isExisting := s1.requests.any (fun q => upperKey q.requestNo == rn)
      match (if pyTruthy r.branchCode
             then ensureBranchPlain s1.branches (r.branchCode.getD "") r.branchRace
             else Except.ok s1.branches) with
      | .error bs => .error { s1 with branches := bs }
      | .ok bs =>
        let s2 := { s1 with branches := bs }
        let s3 := if pyTruthy r.statusCode
          then { s2 with statuses := ensureRef s2.statuses (r.statusCode.getD "") } else s2
        let s4 := if pyTruthy r.installationTypeCode
          then { s3 with instTypes := ensureRef s3.instTypes (r.installationTypeCode.getD "") }
          else s3
        let s5 := if pyTruthy r.meterSizeCode
          then { s4 with meterSizes := ensureRef s4.meterSizes (r.meterSizeCode.getD "") }
          else s4
        if r.raisesOnUpsert then .error s5
        else if isExisting then
          .ok ({ s5 with requests := s5.requests.map (fun q =>
                  if upperKey q.requestNo == rn then
                    { q with statusCode := resolvedCode r.statusCode,
                             instTypeCode := resolvedCode r.installationTypeCode,
                             meterSizeCode := resolvedCode r.meterSizeCode }
                  else q) }, .updatedRow)
        else
          .ok ({ s5 with requests :=
                  { requestNo := rn,
                    instTypeCode := resolvedCode r.installationTypeCode,
                    statusCode := resolvedCode r.statusCode,
                    meterSizeCode := resolvedCode r.meterSizeCode } :: s5.requests },
               .createdRow)

def irDelta : UpsertOutcome → SyncCounters
  | .createdRow => ⟨1, 1, 0, 0, 0⟩
  | .updatedRow => ⟨1, 0, 1, 0, 0⟩
  | .skippedRow => ⟨1, 0, 0, 1, 0⟩

/-- One row including the row-level `except Exception` handler (lines
698-717): any exception rolls back only this row and classifies it
failed. -/
def processIRRow (s : Store) (r : IRRow) : Store × SyncCounters :=
  match processIRRowBody s r with
  | .ok (s', o) => (s', irDelta o)
  | .error s' => (s', ⟨1, 0, 0, 0, 1⟩)

/-- The rows of one batch, accumulating the batch-local counters. -/
def irBatchRows : Store → SyncCounters → List IRRow → Store × SyncCounters
  | s, c, [] => (s, c)
  | s, c, r :: rs =>
    let p := processIRRow s r
    irBatchRows p.1 (c.add p.2) rs

/-- The batch loop of `sync_installation_requests` (lines 394-732):
after each batch the batch-local counter deltas are added to the
persisted log (this flow resets its per-batch counters, so it adds
true deltas). -/
def irBatches : Store → SyncCounters → SyncCounters → List (List IRRow) →
    Store × SyncCounters × SyncCounters
  | s, totals, log, [] => (s, totals, log)
  | s, totals, log, b :: bs =>
    let p := irBatchRows s SyncCounters.zero b
    irBatches p.1 (totals.add p.2) (updateSyncLog log p.2 false) bs

/-- `sync_installation_requests` without a run-aborting exception. -/
def irRun (s : Store) (batches : List (List IRRow)) : RunResult :=
  let t := irBatches s SyncCounters.zero SyncCounters.zero batches
  { store := t.1, loopCounters := t.2.1, log := t.2.2,
    status := endSyncStatus "success" t.2.2.processed t.2.2.failed }

theorem irDelta_bucketInv (o : UpsertOutcome) : (irDelta o).bucketInv := by
  cases o <;> decide

theorem processIRRow_bucketInv (s : Store) (r : IRRow) :
    (processIRRow s r).2.bucketInv := by
  unfold processIRRow
  rcases h : processIRRowBody s r with s' | v
  · simp only [h]; decide
  · simp only [h]; exact irDelta_bucketInv v.2

theorem irBatchRows_bucketInv (rows : List IRRow) :
    ∀ s c, c.bucketInv → (irBatchRows s c rows).2.bucketInv := by
  induction rows with
  | nil => intro s c hc; exact hc
  | cons r rs ih =>
    intro s c hc
    exact ih _ _ (SyncCounters.bucketInv_add hc (processIRRow_bucketInv s r))

theorem irBatches_bucketInv (bs : List (List IRRow)) :
    ∀ s t log, t.bucketInv → log.bucketInv →
      (irBatches s t log bs).2.1.bucketInv ∧ (irBatches s t log bs).2.2.bucketInv := by
  induction bs with
  | nil => intro s t log ht hl; exact ⟨ht, hl⟩
  | cons b rest ih =>
    intro s t log ht hl
    have hb := irBatchRows_bucketInv b s SyncCounters.zero SyncCounters.bucketInv_zero
    exact ih _ _ _ (SyncCounters.bucketInv_add ht hb) (SyncCounters.bucketInv_add hl hb)

theorem irRun_log_bucketInv (s : Store) (bs : List (List IRRow)) :
    (irRun s bs).log.bucketInv := by
  exact (irBatches_bucketInv bs s SyncCounters.zero SyncCounters.zero
    SyncCounters.bucketInv_zero SyncCounters.bucketInv_zero).2

/-- A source row of the temporary-installation query.  The row carries
an `INSTALL_TYPE` value (`installationTypeCode`), but the flow never
uses it. -/
structure TempRow where
  customerId : Option String
  requestNo : Option String
  branchCode : Option String
  statusCode : Option String
  installationTypeCode : Option String
  meterSizeCode : Option String
  branchRace : Bool
  raisesOnUpsert : Bool
deriving Repr, DecidableEq

/-- One row of `sync_temporary_installations` (lines 848-1106), up to
the row-level handler.  The customer-path branch create is the
duplicate-key-recovering variant; the request-path branch create is
unguarded.  The installation type is always resolved with the
hard-coded code `'2'` (lines 992-1012).  The third component of a
successful result is the request row written by the upsert. -/
def processTempRowBody (s : Store) (r : TempRow) :
    Except Store (Store × UpsertOutcome × Option TargetRequest) :=
  let s1 :=
    if pyTruthy r.customerId then
      let cid := r.customerId.getD ""
      if cid ∈ s.customers then s
      else
        let bs := if pyTruthy r.branchCode
          then ensureBranchRecover s.branches (r.branchCode.getD "") r.branchRace
          else s.branches
        { s with branches := bs, customers := cid :: s.customers }
    else s
  if !(pyTruthy r.requestNo) then .ok (s1, .skippedRow, none)
  else
    let rn := r.requestNo.getD ""
    let isExisting := s1.requests.any (fun q => q.requestNo == rn)
    match (if pyTruthy r.branchCode
           then ensureBranchPlain s1.branches (r.branchCode.getD "") r.branchRace
           else Except.ok s1.branches) with
    | .error bs => .error { s1 with branches := bs }
    | .ok bs =>
      let s2 := { s1 with branches := bs }
      let s3 := if pyTruthy r.statusCode
        then { s2 with statuses := ensureRef s2.statuses (r.statusCode.getD "") } else s2
      let s4 := { s3 with instTypes := ensureRef s3.instTypes "2" }
      let s5 := if pyTruthy r.meterSizeCode
        then { s4 with meterSizes := ensureRef s4.meterSizes (r.meterSizeCode.getD "") }
        else s4
      let written : TargetRequest :=
        { requestNo := rn, instTypeCode := some "2",
          statusCode := resolvedCode r.statusCode,
          meterSizeCode := resolvedCode r.meterSizeCode }
      if r.raisesOnUpsert then .error s5
      else if isExisting then
        .ok ({ s5 with requests := s5.requests.map (fun q =>
                if q.requestNo == rn then
                  { q with statusCode := resolvedCode r.statusCode,
                           instTypeCode := some "2",
                           meterSizeCode := resolvedCode r.meterSizeCode }
                else q) }, .updatedRow, some written)
      else
        .ok ({ s5 with requests := written :: s5.requests }, .createdRow, some written)

/-- One temporary-installation row including the row-level handler
(lines 1108-1125). -/
def processTempRow (s : Store) (r : TempRow) : Store × SyncCounters :=
  match processTempRowBody s r with
  | .ok (s', o, _) => (s', irDelta o)
  | .error s' => (s', ⟨1, 0, 0, 0, 1⟩)

/-- The request row the upsert of one temporary-installation row wrote,
when it reached the upsert. -/
def tempRowWritten (s : Store) (r : TempRow) : Option TargetRequest :=
  match processTempRowBody s r with
  | .ok (_, _, w) => w
  | .error _ => none

def tempBatchRows : Store → SyncCounters → List TempRow → Store × SyncCounters
  | s, c, [] => (s, c)
  | s, c, r :: rs =>
    let p := processTempRow s r
    tempBatchRows p.1 (c.add p.2) rs

/-- The batch loop of `sync_temporary_installations` (lines 839-1140):
per-batch counters are reset, so each `_update_sync_log` call adds
true deltas. -/
def tempBatches : Store → SyncCounters → SyncCounters → List (List TempRow) →
    Store × SyncCounters × SyncCounters
  | s, totals, log, [] => (s, totals, log)
  | s, totals, log, b :: bs =>
    let p := tempBatchRows s SyncCounters.zero b
    tempBatches p.1 (totals.add p.2) (updateSyncLog log p.2 false) bs

/-- `sync_temporary_installations` without a run-aborting exception. -/
def tempRun (s : Store) (batches : List (List TempRow)) : RunResult :=
  let t := tempBatches s SyncCounters.zero SyncCounters.zero batches
  { store := t.1, loopCounters := t.2.1, log := t.2.2,
    status := endSyncStatus "success" t.2.2.processed t.2.2.failed }

theorem processTempRow_bucketInv (s : Store) (r : TempRow) :
    (processTempRow s r).2.bucketInv := by
  unfold processTempRow
  rcases h : processTempRowBody s r with s' | v
  · simp only [h]; decide
  · simp only [h]; exact irDelta_bucketInv v.2.1

theorem tempBatchRows_bucketInv (rows : List TempRow) :
    ∀ s c, c.bucketInv → (tempBatchRows s c rows).2.bucketInv := by
  induction rows with
  | nil => intro s c hc; exact hc
  | cons r rs ih =>
    intro s c hc
    exact ih _ _ (SyncCounters.bucketInv_add hc (processTempRow_bucketInv s r))

theorem tempBatches_bucketInv (bs : List (List TempRow)) :
    ∀ s t log, t.bucketInv → log.bucketInv →
      (tempBatches s t log bs).2.1.bucketInv ∧ (tempBatches s t log bs).2.2.bucketInv := by
  induction bs with
  | nil => intro s t log ht hl; exact ⟨ht, hl⟩
  | cons b rest ih =>
    intro s t log ht hl
    have hb := tempBatchRows_bucketInv b s SyncCounters.zero SyncCounters.bucketInv_zero
    exact ih _ _ _ (SyncCounters.bucketInv_add ht hb) (SyncCounters.bucketInv_add hl hb)

theorem tempRun_log_bucketInv (s : Store) (bs : List (List TempRow)) :
    (tempRun s bs).log.bucketInv := by
  exact (tempBatches_bucketInv bs s SyncCounters.zero SyncCounters.zero
    SyncCounters.bucketInv_zero SyncCounters.bucketInv_zero).2

theorem processTempRowBody_written (s : Store) (r : TempRow)
    (v : Store × UpsertOutcome × Option TargetRequest)
    (h : processTempRowBody s r = .ok v) :
    v.2.2.all (fun q => q.instTypeCode == some "2") = true := by
  unfold processTempRowBody at h
  dsimp only at h
  repeat' split at h
  all_goals
    first
      | exact Except.noConfusion h
      | (cases h; rfl)

/-- C9: the temporary-installation flow resolves the installation type
with the fixed code `'2'`: processing a row is independent of the
`installationTypeCode` value the source row carries, and whenever the
upsert writes a request row, that row links the type with code `'2'`. -/
theorem temp_flow_forces_type_code_two (s : Store) (r : TempRow) (c : Option String) :
    processTempRowBody s { r with installationTypeCode := c } = processTempRowBody s r ∧
    (tempRowWritten s r).all (fun q => q.instTypeCode == some "2") = true := by
  constructor
  · cases r; rfl
  · unfold tempRowWritten
    rcases h : processTempRowBody s r with s' | v
    · simp only [h]; rfl
    · simp only [h]; exact processTempRowBody_written s r v h

theorem SyncCounters.add_processed (a b : SyncCounters) :
    (a.add b).processed = a.processed + b.processed := rfl

theorem SyncCounters.add_created (a b : SyncCounters) :
    (a.add b).created = a.created + b.created := rfl

theorem SyncCounters.add_failed (a b : SyncCounters) :
    (a.add b).failed = a.failed + b.failed := rfl

/-- Python `a or b` over the two optional id fields. -/
def pyOr (a b : Option String) : Option String :=
  if pyTruthy a then a else b

/-- Python `str(x)`: `None` renders as the string `"None"`. -/
def pyStr (o : Option String) : String :=
  match o with
  | none => "None"
  | some s => s

/-- A source row of the new-customer query (`sync_new_customers`). -/
structure NCRow where
  custCode : Option String
  customerId : Option String
  baCode : Option String
  branchRace : Bool
deriving Repr, DecidableEq

/-- `str(customer_id or customer_code)`, the `original_id` given to a
created customer (line 1324). -/
def ncOriginalId (r : NCRow) : String :=
  pyStr (pyOr r.customerId r.custCode)

/-- The two-step existence check of lines 1268-1277: by
`str(customer_id)` first, then by `str(customer_code)`. -/
def ncCustomerFound (s : Store) (r : NCRow) : Bool :=
  (pyTruthy r.customerId && s.customers.contains (r.customerId.getD "")) ||
  (pyTruthy r.custCode && s.customers.contains (r.custCode.getD ""))

/-- How one new-customer row terminates: an existing customer leaves
the row with no terminal bucket at all, and a missing customer is
committed to the store after which the `total_created += 1` of line
1338 raises `UnboundLocalError` (`total_created` is a local name never
assigned in `sync_new_customers`), which the row-level handler turns
into `failed += 1`. -/
inductive NCOutcome
  | foundRow
  | createFailedRow
deriving Repr, DecidableEq

/-- One row of `sync_new_customers` (lines 1259-1359) including the
row-level handler.  The branch create of the miss path is the
duplicate-key-recovering variant (lines 1301-1320).  The created
customer is committed (lines 1334-1335) before the failing counter
increment, so the rollback of the handler cannot remove it. -/
def processNCRow (s : Store) (r : NCRow) : Store × NCOutcome :=
  if ncCustomerFound s r then (s, .foundRow)
  else
    let bs := if pyTruthy r.baCode
      then ensureBranchRecover s.branches (r.baCode.getD "") r.branchRace
      else s.branches
    ({ s with branches := bs, customers := ncOriginalId r :: s.customers },
     .createFailedRow)

/-- The row loop of `sync_new_customers`: a successful (found) row
executes both the in-`try` periodic update of line 1344 and the
loop-level periodic update of line 1361 — at every tenth row the
cumulative counters are added twice; a failing row only reaches the
loop-level one.  Both pass cumulative counters to the additive
`_update_sync_log`. -/
def ncLoop : Store → SyncCounters → SyncCounters → List NCRow →
    Store × SyncCounters × SyncCounters
  | s, c, log, [] => (s, c, log)
  | s, c, log, r :: rs =>
    let p := processNCRow s r
    match p.2 with
    | .foundRow =>
      let c' := c.add ⟨1, 0, 0, 0, 0⟩
      let log1 := if c'.processed % 10 = 0 then updateSyncLog log c' false else log
      let log2 := if c'.processed % 10 = 0 then updateSyncLog log1 c' false else log1
      ncLoop p.1 c' log2 rs
    | .createFailedRow =>
      let c' := c.add ⟨1, 0, 0, 0, 1⟩
      let log1 := if c'.processed % 10 = 0 then updateSyncLog log c' false else log
      ncLoop p.1 c' log1 rs

/-- `sync_new_customers` without a run-aborting exception: the loop,
the final cumulative update (lines 1372-1378, no `reset_counters`),
then `_end_sync_log("success")`. -/
def ncRun (s : Store) (rows : List NCRow) : RunResult :=
  let t := ncLoop s SyncCounters.zero SyncCounters.zero rows
  let log1 := updateSyncLog t.2.2 t.2.1 false
  { store := t.1, loopCounters := t.2.1, log := log1,
    status := endSyncStatus "success" log1.processed log1.failed }

theorem ncLoop_created_zero (rows : List NCRow) :
    ∀ s c log, c.created = 0 → log.created = 0 →
      (ncLoop s c log rows).2.1.created = 0 ∧ (ncLoop s c log rows).2.2.created = 0 := by
  induction rows with
  | nil => intro s c log hc hl; exact ⟨hc, hl⟩
  | cons r rs ih =>
    intro s c log hc hl
    simp only [ncLoop]
    rcases h : (processNCRow s r).2 with _ | _ <;> simp only [h]
    · apply ih
      · simp [SyncCounters.add_created, hc]
      · repeat' split
        all_goals simp [updateSyncLog_no_reset, SyncCounters.add_created, hc, hl]
    · apply ih
      · simp [SyncCounters.add_created, hc]
      · repeat' split
        all_goals simp [updateSyncLog_no_reset, SyncCounters.add_created, hc, hl]

theorem ncRun_created_zero (s : Store) (rows : List NCRow) :
    (ncRun s rows).log.created = 0 := by
  have h := ncLoop_created_zero rows s SyncCounters.zero SyncCounters.zero rfl rfl
  show (updateSyncLog (ncLoop s SyncCounters.zero SyncCounters.zero rows).2.2
      (ncLoop s SyncCounters.zero SyncCounters.zero rows).2.1 false).created = 0
  rw [updateSyncLog_no_reset, SyncCounters.add_created, h.1, h.2]

/-- A source row of the customer-type-change query.  `raises` models
an unexpected exception anywhere in the row's processing (for example
the metadata JSON update of lines 1578-1613 throwing and re-raising). -/
structure CTCRow where
  custId : Option String
  custCode : Option String
  baCode : Option String
  branchRace : Bool
  raises : Bool
deriving Repr, DecidableEq

def ctcOriginalId (r : CTCRow) : String :=
  pyStr (pyOr r.custId r.custCode)

def ctcCustomerFound (s : Store) (r : CTCRow) : Bool :=
  (pyTruthy r.custId && s.customers.contains (r.custId.getD "")) ||
  (pyTruthy r.custCode && s.customers.contains (r.custCode.getD ""))

/-- One row of `sync_customer_type_changes` (lines 1477-1619), up to
the row-level handler.  `hasMeta` is the `hasattr(customer, 'metadata')`
test of line 1576: with it, an existing customer counts as updated and
a created one only as created; without it, the row is logged and
counted skipped — in addition to created when the customer was just
created.  The counter delta is returned with the row's committed
store. -/
def processCTCRowBody (hasMeta : Bool) (s : Store) (r : CTCRow) :
    Except Store (Store × SyncCounters) :=
  if r.raises then .error s
  else
    let found := ctcCustomerFound s r
    let s1 :=
      if found then s
      else
        let bs := if pyTruthy r.baCode
          then ensureBranchRecover s.branches (r.baCode.getD "") r.branchRace
          else s.branches
        { s with branches := bs, customers := ctcOriginalId r :: s.customers }
    let d : SyncCounters :=
      if hasMeta then
        if found then ⟨1, 0, 1, 0, 0⟩ else ⟨1, 1, 0, 0, 0⟩
      else
        if found then ⟨1, 0, 0, 1, 0⟩ else ⟨1, 1, 0, 1, 0⟩
    .ok (s1, d)

/-- The row loop of `sync_customer_type_changes`.  The row-level
handler (lines 1623-1628) increments `failed`, a local name that is
never assigned anywhere in the function (all its counters are
`total_`-prefixed), so the handler itself raises `UnboundLocalError`,
which propagates to the function-level `except` and aborts the run;
the error value carries the committed store, the loop counters at the
abort and the rows never iterated.  The periodic-update block of lines
1630-1636 computes a value but performs no write, so the loop never
touches the persisted counters. -/
def ctcLoop (hasMeta : Bool) : Store → SyncCounters → List CTCRow →
    Except (Store × SyncCounters × List CTCRow) (Store × SyncCounters)
  | s, c, [] => .ok (s, c)
  | s, c, r :: rs =>
    match processCTCRowBody hasMeta s r with
    | .ok (s', d) => ctcLoop hasMeta s' (c.add d) rs
    | .error s' => .error (s', c.add ⟨1, 0, 0, 0, 0⟩, rs)

/-- Result of one `sync_customer_type_changes` invocation. -/
structure CTCRunResult where
  store : Store
  log : SyncCounters
  status : String
  aborted : Bool
  remaining : List CTCRow
deriving Repr, DecidableEq

/-- `sync_customer_type_changes`: on a completed loop the final
`_update_sync_log(..., reset_counters=True)` of lines 1642-1649 makes
the persisted counters the loop totals, and lines 1652-1659 choose the
status passed to `_end_sync_log`; an aborted loop reaches the
function-level handler, which calls `_end_sync_log("failed", str(e))`
with the persisted counters never written. -/
def ctcRun (hasMeta : Bool) (s : Store) (rows : List CTCRow) : CTCRunResult :=
  match ctcLoop hasMeta s SyncCounters.zero rows with
  | .ok (s', c) =>
    let log := updateSyncLog SyncCounters.zero c true
    let statusIn :=
      if 0 < c.failed then
        if c.failed = c.processed then "failed" else "partial"
      else "success"
    { store := s', log := log,
      status := endSyncStatus statusIn log.processed log.failed,
      aborted := false, remaining := [] }
  | .error (s', _, rest) =>
    { store := s', log := SyncCounters.zero,
      status := endSyncStatus "failed" SyncCounters.zero.processed SyncCounters.zero.failed,
      aborted := true, remaining := rest }

theorem processCTCRowBody_ok_failed_zero (hm : Bool) (s : Store) (r : CTCRow)
    (v : Store × SyncCounters) (h : processCTCRowBody hm s r = .ok v) :
    v.2.failed = 0 := by
  unfold processCTCRowBody at h
  dsimp only at h
  repeat' split at h
  all_goals first
    | exact Except.noConfusion h
    | (cases h; rfl)

theorem ctcLoop_ok_failed_eq (hm : Bool) (rows : List CTCRow) :
    ∀ s c v, ctcLoop hm s c rows = .ok v → v.2.failed = c.failed := by
  induction rows with
  | nil => intro s c v h; cases h; rfl
  | cons r rs ih =>
    intro s c v h
    simp only [ctcLoop] at h
    rcases hb : processCTCRowBody hm s r with s' | w
    · rw [hb] at h; exact Except.noConfusion h
    · rw [hb] at h
      have := ih _ _ _ h
      rw [this, SyncCounters.add_failed, processCTCRowBody_ok_failed_zero hm s r w hb]
      omega

/-- `f"{query_month:02d}"`: zero-pad the month to two digits. -/
def pad2 (m : Nat) : String :=
  if m < 10 then "0" ++ toString m else toString m

/-- The `year_month` filter parameter of `sync_new_customers`
(line 1209): `f"{query_year}{query_month:02d}"`, built directly from
the caller-supplied Gregorian year. -/
def ncYearMonth (y m : Nat) : String :=
  toString y ++ pad2 m

/-- The `year_month` filter parameter of `sync_customer_type_changes`
(line 1407), also Gregorian. -/
def ctcYearMonth (y m : Nat) : String :=
  toString y ++ pad2 m

/-- The `year_month_th` parameter of `sync_customer_type_changes`
(lines 1410-1411): `year_th = query_year + 543` then
`f"{year_th}{query_month:02d}"`, used for the `debt_ym` filter. -/
def ctcYearMonthTh (y m : Nat) : String :=
  toString (y + 543) ++ pad2 m

/-- The calendar-period filter as the spec words it: the fixed
constant +543 added to the caller-supplied Gregorian year wherever the
source distinguishes the Buddhist calendar. -/
def specBuddhistYearMonth (y m : Nat) : String :=
  toString (y + 543) ++ pad2 m

/-- C1: for every sync run that completes without a run-aborting
exception the finalized status follows the spec's ratio rule:
`processed == 0` gives success, `failed == processed` or a ratio above
0.9 gives failed, a ratio in (0.1, 0.9] gives partial, a ratio at or
below 0.1 gives success.  The first conjunct settles `_end_sync_log`
itself for the `"success"` incoming status; the remaining conjuncts
show every flow's completing path produces exactly that status —
including `sync_customer_type_changes`, whose non-aborting runs always
reach `_end_sync_log` with zero failures and status `"success"`. -/
theorem run_status_follows_ratio_rule :
    (∀ p f, endSyncStatus "success" p f = specStatusRule p f) ∧
    (∀ s rows, (holidayRun s rows).status =
      specStatusRule (holidayRun s rows).log.processed (holidayRun s rows).log.failed) ∧
    (∀ s bs, (irRun s bs).status =
      specStatusRule (irRun s bs).log.processed (irRun s bs).log.failed) ∧
    (∀ s bs, (tempRun s bs).status =
      specStatusRule (tempRun s bs).log.processed (tempRun s bs).log.failed) ∧
    (∀ s rows, (ncRun s rows).status =
      specStatusRule (ncRun s rows).log.processed (ncRun s rows).log.failed) ∧
    (∀ hm s rows, (ctcRun hm s rows).aborted = false →
      (ctcRun hm s rows).status =
        specStatusRule (ctcRun hm s rows).log.processed (ctcRun hm s rows).log.failed) := by
  refine ⟨endSyncStatus_eq_specStatusRule,
          fun s rows => endSyncStatus_eq_specStatusRule _ _,
          fun s bs => endSyncStatus_eq_specStatusRule _ _,
          fun s bs => endSyncStatus_eq_specStatusRule _ _,
          fun s rows => endSyncStatus_eq_specStatusRule _ _,
          fun hm s rows hab => ?_⟩
  unfold ctcRun at hab ⊢
  rcases h : ctcLoop hm s SyncCounters.zero rows with ⟨ts, tc, tr⟩ | ⟨s', c⟩
  · rw [h] at hab
    simp at hab
  · have hf : c.failed = 0 := by
      simpa using ctcLoop_ok_failed_eq hm rows s SyncCounters.zero (s', c) h
    dsimp only
    simp only [hf, Nat.lt_irrefl, ite_false]
    exact endSyncStatus_eq_specStatusRule _ _

/-- C1 witness: an empty customer-type-change run is non-aborting and
its status follows the ratio rule. -/
theorem run_status_follows_ratio_rule_witness :
    (ctcRun true Store.empty []).aborted = false ∧
    (ctcRun true Store.empty []).status =
      specStatusRule (ctcRun true Store.empty []).log.processed
        (ctcRun true Store.empty []).log.failed :=
  ⟨by decide, run_status_follows_ratio_rule.2.2.2.2.2 true Store.empty [] (by decide)⟩

/-- C2 counterexample: in the new-customer flow a source row whose
customer already exists locally increments `records_processed` only —
no terminal bucket at all — so the run finalizes with
`processed = 1` but `created + updated + skipped + failed = 0`,
violating `processed == created + updated + skipped + failed`. -/
theorem nc_existing_customer_breaks_bucket_invariant :
    (ncRun { Store.empty with customers := ["7"] }
      [{ custCode := none, customerId := some "7", baCode := none,
         branchRace := false }]).log = ⟨1, 0, 0, 0, 0⟩ ∧
    ¬ (ncRun { Store.empty with customers := ["7"] }
      [{ custCode := none, customerId := some "7", baCode := none,
         branchRace := false }]).log.bucketInv := by
  decide

/-- C2 amended: the bucket-sum invariant
`processed == created + updated + skipped + failed` holds at
finalization for the holiday, installation-request and
temporary-installation flows (every processed row lands in exactly one
terminal bucket, and the persisted counters are sums of snapshots that
each satisfy the invariant); it fails in the new-customer flow, whose
rows with an already-existing customer reach no terminal bucket. -/
theorem bucket_invariant_holiday_ir_temp_flows :
    (∀ s rows, (holidayRun s rows).log.bucketInv) ∧
    (∀ s bs, (irRun s bs).log.bucketInv) ∧
    (∀ s bs, (tempRun s bs).log.bucketInv) :=
  ⟨holidayRun_log_bucketInv, irRun_log_bucketInv, tempRun_log_bucketInv⟩

/-- C3: in `sync_customer_type_changes` a single row-level exception
aborts the whole run: the handler's `failed += 1` raises
`UnboundLocalError`, which escapes to the function-level handler.  In
a 3-row run whose first row throws, the remaining two rows are never
iterated, the persisted counters stay zero, and the run finalizes
`failed`. -/
theorem ctc_row_exception_aborts_run :
    (ctcRun true Store.empty
      [{ custId := some "1", custCode := none, baCode := none,
         branchRace := false, raises := true },
       { custId := some "2", custCode := none, baCode := none,
         branchRace := false, raises := false },
       { custId := some "3", custCode := none, baCode := none,
         branchRace := false, raises := false }]).aborted = true ∧
    (ctcRun true Store.empty
      [{ custId := some "1", custCode := none, baCode := none,
         branchRace := false, raises := true },
       { custId := some "2", custCode := none, baCode := none,
         branchRace := false, raises := false },
       { custId := some "3", custCode := none, baCode := none,
         branchRace := false, raises := false }]).remaining =
      [{ custId := some "2", custCode := none, baCode := none,
         branchRace := false, raises := false },
       { custId := some "3", custCode := none, baCode := none,
         branchRace := false, raises := false }] ∧
    (ctcRun true Store.empty
      [{ custId := some "1", custCode := none, baCode := none,
         branchRace := false, raises := true },
       { custId := some "2", custCode := none, baCode := none,
         branchRace := false, raises := false },
       { custId := some "3", custCode := none, baCode := none,
         branchRace := false, raises := false }]).status = "failed" ∧
    (ctcRun true Store.empty
      [{ custId := some "1", custCode := none, baCode := none,
         branchRace := false, raises := true },
       { custId := some "2", custCode := none, baCode := none,
         branchRace := false, raises := false },
       { custId := some "3", custCode := none, baCode := none,
         branchRace := false, raises := false }]).log = SyncCounters.zero := by
  decide

/-- C4 counterexample: a run aborted with an explicit error message
calls `_end_sync_log("failed", msg)`, but with `processed = 10` and
`failed = 2` the ratio branch reclassifies the status to `partial` —
the explicit failure does not override the counters. -/
theorem abort_status_overridden_to_partial :
    endSyncStatus "failed" 10 2 = "partial" ∧ "partial" ≠ "failed" := by
  refine ⟨?_, by decide⟩
  rw [endSyncStatus_nat]
  decide

/-- C4 amended: a run finalized with requested status `failed` (the
abort path, which also records the error message) keeps status
`failed` unless the counters put the failure ratio strictly above 0.1
and at or below 0.9 with `failed ≠ processed`, in which case the ratio
rule overrides the explicit failure to `partial`. -/
theorem explicit_failure_status_resolution (p f : Nat) :
    endSyncStatus "failed" p f =
      if 0 < p ∧ ¬(f = p ∨ 9 * p < 10 * f) ∧ p < 10 * f then "partial"
      else "failed" := by
  rw [endSyncStatus_nat]
  split_ifs <;> simp_all

/-- C7 counterexample: for March 2023 the new-customer flow's period
filter is the Gregorian `"202303"`, not the
Buddhist-offset `"256603"` the claim requires — `sync_new_customers`
never adds 543 anywhere. -/
theorem nc_flow_uses_gregorian_period :
    ncYearMonth 2023 3 = "202303" ∧
    specBuddhistYearMonth 2023 3 = "256603" ∧
    ncYearMonth 2023 3 ≠ specBuddhistYearMonth 2023 3 := by
  decide

/-- C7 amended: the +543 Buddhist-calendar offset is applied only in
the customer-type-change flow and only to its `debt_ym` filter
parameter (`year_month_th`); both flows' `yyyymm` period filters use
the caller-supplied Gregorian year unchanged. -/
theorem buddhist_offset_only_in_ctc_debt_filter (y m : Nat) :
    ctcYearMonthTh y m = specBuddhistYearMonth y m ∧
    ncYearMonth y m = toString y ++ pad2 m ∧
    ctcYearMonth y m = ncYearMonth y m :=
  ⟨rfl, rfl, rfl⟩

/-- C8 counterexample: in `sync_installation_requests` a duplicate-key
race on branch creation surfaces as a failure of the row being
processed: the row is classified failed even though the branch now
exists (created by the concurrent writer). -/
theorem ir_branch_race_fails_row :
    (processIRRow Store.empty
      { customerId := some "10", requestNo := some "R1", requestId := none,
        branchCode := some "701", statusCode := none,
        installationTypeCode := none, meterSizeCode := none,
        branchRace := true, raisesOnUpsert := false }).2 = ⟨1, 0, 0, 0, 1⟩ ∧
    "701" ∈ (processIRRow Store.empty
      { customerId := some "10", requestNo := some "R1", requestId := none,
        branchCode := some "701", statusCode := none,
        installationTypeCode := none, meterSizeCode := none,
        branchRace := true, raisesOnUpsert := false }).1.branches := by
  decide

/-- C8 amended: duplicate-key recovery exists only at the guarded
branch-creation sites (temporary-installation customer path,
new-customer and customer-type-change flows), where a race is resolved
by re-querying the concurrently created branch; the unguarded variant
used by `sync_installation_requests` (and the temporary flow's
request path) raises instead, and the exception reaches the row-level
handler. -/
theorem branch_race_recovery_only_at_guarded_sites
    (branches : List String) (ba : String) (h : ba ∉ branches) :
    ensureBranchPlain branches ba true = Except.error (ba :: branches) ∧
    ensureBranchRecover branches ba true = ba :: branches := by
  unfold ensureBranchPlain ensureBranchRecover
  simp [h]

theorem branch_race_recovery_witness :
    ("700" : String) ∉ ([] : List String) ∧
    (ensureBranchPlain [] "700" true = Except.error ["700"] ∧
     ensureBranchRecover [] "700" true = ["700"]) :=
  ⟨by decide, branch_race_recovery_only_at_guarded_sites [] "700" (by decide)⟩

/-- C10: in every invocation of `sync_new_customers` the persisted
`records_created` is 0 (the `created` counter is never incremented —
the increment targets the unbound name `total_created`), and every row
whose customer is not found commits the new customer to the store and
is then classified failed: the `UnboundLocalError` raised after the
commit reaches the row-level handler, whose rollback cannot undo the
committed insert. -/
theorem nc_create_commits_then_fails (s : Store) (rows : List NCRow) (r : NCRow) :
    (ncRun s rows).log.created = 0 ∧
    (ncCustomerFound s r = false →
      (processNCRow s r).2 = NCOutcome.createFailedRow ∧
      ncOriginalId r ∈ (processNCRow s r).1.customers) := by
  refine ⟨ncRun_created_zero s rows, fun h => ?_⟩
  unfold processNCRow
  rw [if_neg (by simp [h])]
  exact ⟨rfl, List.mem_cons_self _ _⟩

/-- C10 witness: a single fresh row against the empty store. -/
theorem nc_create_commits_then_fails_witness :
    ncCustomerFound Store.empty
      { custCode := none, customerId := some "1", baCode := some "700",
        branchRace := false } = false ∧
    ((processNCRow Store.empty
      { custCode := none, customerId := some "1", baCode := some "700",
        branchRace := false }).2 = NCOutcome.createFailedRow ∧
     ncOriginalId
      { custCode := none, customerId := some "1", baCode := some "700",
        branchRace := false } ∈
      (processNCRow Store.empty
        { custCode := none, customerId := some "1", baCode := some "700",
          branchRace := false }).1.customers) :=
  ⟨by decide,
   (nc_create_commits_then_fails Store.empty []
     { custCode := none, customerId := some "1", baCode := some "700",
       branchRace := false }).2 (by decide)⟩

end SyncService
